import Mathlib

/-!
Verification of the query-resolution and retrieval-fusion pipeline of the
Flusso Agent console backend.

The development is a shallow embedding of the Python sources:
* `server/app/core/orchestrator.py` (pipeline coordinator),
* `server/app/services/gemini_service.py` (generation / file-search wrapper),
* `server/app/routers/api.py` (the chat endpoint),
* `server/app/core/prompts.py` (prompt table, modelled as an abstract record).

Python values flowing through the defensive code paths are embedded as the
JSON-like type `PyVal`; fallible Python operations (attribute access,
subscripting, `.items()`, membership tests on unsupported receivers) are
embedded in the `Except String` monad, where `Except.error` stands for a
raised exception.  External collaborators (the unstructured-search backend
and the generation backend) are parameters: functions from the issued
request to an outcome.
-/

namespace Flusso

/-- Python-ish dynamic values as they flow through the service layer:
strings, dictionaries (association lists with string keys), lists and
`None`.  Numeric leaves do not occur on the code paths under
verification, so they are not included. -/
inductive PyVal where
  | str (s : String)
  | pdict (entries : List (String × PyVal))
  | plist (xs : List PyVal)
  | pnone

mutual

/-- Structural equality on `PyVal`, mirroring Python `==` on these value
shapes (dictionaries in this code base are built with a fixed key order,
so ordered comparison of the association lists is adequate). -/
def PyVal.beq : PyVal → PyVal → Bool
  | .str a, .str b => a == b
  | .pdict a, .pdict b => PyVal.beqEntries a b
  | .plist a, .plist b => PyVal.beqVals a b
  | .pnone, .pnone => true
  | _, _ => false

/-- Pointwise equality of dictionary entry lists. -/
def PyVal.beqEntries : List (String × PyVal) → List (String × PyVal) → Bool
  | [], [] => true
  | (k1, v1) :: r1, (k2, v2) :: r2 =>
    k1 == k2 && PyVal.beq v1 v2 && PyVal.beqEntries r1 r2
  | _, _ => false

/-- Pointwise equality of value lists. -/
def PyVal.beqVals : List PyVal → List PyVal → Bool
  | [], [] => true
  | a :: r1, b :: r2 => PyVal.beq a b && PyVal.beqVals r1 r2
  | _, _ => false

end

instance : BEq PyVal := ⟨PyVal.beq⟩

/-- Python truthiness for the embedded values: nonempty strings,
nonempty dicts and nonempty lists are truthy; `None` is falsy. -/
def PyVal.truthy : PyVal → Bool
  | .str s => !s.isEmpty
  | .pdict d => !d.isEmpty
  | .plist xs => !xs.isEmpty
  | .pnone => false

/-- `isinstance(v, dict)`. -/
def PyVal.isDict : PyVal → Bool
  | .pdict _ => true
  | _ => false

/-- `isinstance(v, list)`. -/
def PyVal.isList : PyVal → Bool
  | .plist _ => true
  | _ => false

/-- Python `str(v)` as used in f-strings.  String leaves render as
themselves and `None` as `"None"`; the `repr` of containers is abstracted
to a placeholder, since no verified property depends on how a container
is rendered inside a prompt line. -/
def PyVal.pyStr : PyVal → String
  | .str s => s
  | .pdict _ => "\x7b...\x7d"
  | .plist _ => "[...]"
  | .pnone => "None"

/-- `d.get(key, dflt)` on a dictionary given as an association list
(first occurrence wins; Python dict literals in this code base have
distinct keys). -/
def dictGet (entries : List (String × PyVal)) (key : String) (dflt : PyVal) : PyVal :=
  match entries.lookup key with
  | some v => v
  | none => dflt

/-- `v.get(key, dflt)` as a method call: raises `AttributeError` when the
receiver is not a dictionary. -/
def PyVal.getItem (v : PyVal) (key : String) (dflt : PyVal) : Except String PyVal :=
  match v with
  | .pdict d => .ok (dictGet d key dflt)
  | _ => .error "AttributeError: get"

/-- `v[key]` subscripting: `KeyError` on a missing key, `TypeError` on a
non-dictionary receiver. -/
def pyIndex (v : PyVal) (key : String) : Except String PyVal :=
  match v with
  | .pdict d =>
    match d.lookup key with
    | some x => .ok x
    | none => .error "KeyError"
  | _ => .error "TypeError: not subscriptable"

/-- `v.items()`: raises `AttributeError` on a non-dictionary receiver. -/
def pyItems (v : PyVal) : Except String (List (String × PyVal)) :=
  match v with
  | .pdict d => .ok d
  | _ => .error "AttributeError: items"

/-- Python substring test `pat in s` on strings. -/
def pyIn (pat s : String) : Bool :=
  decide (pat.toList <:+: s.toList)

/-- Python `key in v`: key lookup on dicts, substring test on strings,
membership on lists; `TypeError` on `None`. -/
def pyInOp (key : String) (v : PyVal) : Except String Bool :=
  match v with
  | .pdict d => .ok (d.any (fun kv => kv.1 == key))
  | .str s => .ok (pyIn key s)
  | .plist xs => .ok (xs.contains (.str key))
  | .pnone => .error "TypeError: argument of type NoneType is not iterable"

/-! ## Prompt-strategy selection (`Orchestrator._synthesize_response`) -/

/-- The troubleshooting keyword table of `_synthesize_response`. -/
def troubleshooting_keywords : List String :=
  ["not working", "broken", "leak", "issue", "problem", "fix", "repair"]

/-- The comparison keyword table of `_synthesize_response`. -/
def comparison_keywords : List String :=
  ["compare", "difference", "versus", "vs", "better"]

/-- The three system prompts exposed by `PromptsManager`; the prompt texts
themselves are opaque payload and are carried as fields. -/
structure PromptsManager where
  synthesis_prompt : String
  troubleshooting_prompt : String
  comparison_prompt : String
deriving Repr, DecidableEq

/-- The system-prompt selection performed at the top of
`Orchestrator._synthesize_response`: start from the synthesis prompt,
switch to the troubleshooting prompt when a troubleshooting keyword occurs
in the lower-cased query, then switch to the comparison prompt when a
comparison keyword occurs (sequential checks, later assignment wins). -/
def selectedPrompt (pm : PromptsManager) (query : String) : String :=
  let sp := pm.synthesis_prompt
  let sp := if troubleshooting_keywords.any (fun k => pyIn k query.toLower) then
      pm.troubleshooting_prompt
    else sp
  if comparison_keywords.any (fun k => pyIn k query.toLower) then
    pm.comparison_prompt
  else sp

/-! ## Model table and sampling (`GeminiService.generate_response`) -/

/-- The `self.models` table of `GeminiService`. -/
def models : List (String × String) :=
  [("flash", "gemini-2.5-flash"), ("reasoning", "gemini-2.5-pro")]

/-- `self.models["flash"]` (the key is statically present). -/
def flashModelName : String := (models.lookup "flash").getD ""

/-- `self.models.get(mode, self.models["flash"])`. -/
def modelNameFor (mode : String) : String :=
  match models.lookup mode with
  | some m => m
  | none => flashModelName

/-- `temperature=0.2 if mode == "flash" else 0.4`; 0.2 and 0.4 are exact
decimal literals, embedded as rationals. -/
def temperatureFor (mode : String) : ℚ :=
  if mode = "flash" then 2/10 else 4/10

/-! ## The unstructured-search collaborator (`GeminiService.file_search`) -/

/-- `retrieved_context` of a grounding chunk; each attribute is optional
because `file_search` reads them with `getattr(ctx, attr, default)`. -/
structure RetrievedContext where
  title : Option String
  text : Option String
  uri : Option String
deriving Repr, DecidableEq

/-- A grounding chunk; `retrieved_context` is read with
`getattr(chunk, "retrieved_context", None)`. -/
structure GroundingChunk where
  retrieved_context : Option RetrievedContext
deriving Repr, DecidableEq

/-- Grounding metadata; an absent `grounding_chunks` attribute and a
falsy one are collapsed into `none`, since `file_search` treats both
alike (no results). -/
structure GroundingMetadata where
  grounding_chunks : Option (List GroundingChunk)
deriving Repr, DecidableEq

/-- A response candidate; a missing `grounding_metadata` attribute
(`hasattr` false) and a `None` value are collapsed into `none`, since
`file_search` treats both alike. -/
structure Candidate where
  grounding_metadata : Option GroundingMetadata
deriving Repr, DecidableEq

/-- The response of the external `generate_content` call made by
`file_search`; `candidates` is read with `getattr(response, "candidates",
None)`. -/
structure SearchResponse where
  candidates : Option (List Candidate)
deriving Repr, DecidableEq

/-- Outcome of the external search request: a response, a
`genai.errors.APIError`, or any other exception. -/
inductive SearchOutcome where
  | success (resp : SearchResponse)
  | apiError (code : Nat) (message : String)
  | failure (message : String)

/-- `True` iff the collaborator outcome is a raised exception. -/
def SearchOutcome.isFailure : SearchOutcome → Bool
  | .success _ => false
  | .apiError _ _ => true
  | .failure _ => true

/-- The request `file_search` sends to the external backend: model name,
contents (the search query), the file-search store and `top_k`. -/
structure IssuedRequest where
  model : String
  contents : String
  store : String
  top_k : Nat
deriving Repr, DecidableEq

/-- The dictionary `{"title": ..., "text": ..., "uri": ...}` that
`file_search` appends for one grounding chunk, including the
`getattr` defaults. -/
def chunkToResult (chunk : GroundingChunk) : PyVal :=
  match chunk.retrieved_context with
  | some ctx =>
    .pdict [("title", .str (ctx.title.getD "Unknown")),
            ("text", .str (ctx.text.getD "")),
            ("uri", .str (ctx.uri.getD ""))]
  | none =>
    .pdict [("title", .str "Unknown"), ("text", .str ""), ("uri", .str "")]

/-- The result-extraction loop of `file_search`: first candidate, its
grounding metadata, then the grounding chunks truncated to
`max_results`. -/
def parseSearchResults (resp : SearchResponse) (max_results : Nat) : List PyVal :=
  match resp.candidates with
  | some (c :: _) =>
    match c.grounding_metadata with
    | some grounding =>
      match grounding.grounding_chunks with
      | some chunks =>
        if chunks.isEmpty then [] else (chunks.take max_results).map chunkToResult
      | none => []
    | none => []
  | _ => []

/-- The `GeminiService` state used by the verified paths: the optional
file-search store name (`corpus_id`). -/
structure GeminiService where
  file_search_store_name : Option String
deriving Repr, DecidableEq

/-- Python truthiness of `self.file_search_store_name`
(`None` and the empty string are falsy). -/
def strOptTruthy : Option String → Bool
  | none => false
  | some s => !s.isEmpty

/-- `f"{model_filter} {query}"` when a filter is given, else the query
unchanged. -/
def searchQueryOf (query : String) (model_filter : Option String) : String :=
  match model_filter with
  | some f => f ++ " " ++ query
  | none => query

/-- `GeminiService.file_search`: skip entirely when no store is
configured; otherwise issue one external request (filter hint prepended,
`top_k = max_results`) and parse the outcome, catching `APIError` and
every other exception into an empty result list.  Returns the issued
request (when one was issued) together with the result list; the
function itself never fails. -/
def fileSearch (svc : GeminiService) (collab : IssuedRequest → SearchOutcome)
    (query : String) (model_filter : Option String) (max_results : Nat) :
    Option IssuedRequest × List PyVal :=
  if strOptTruthy svc.file_search_store_name = false then (none, [])
  else
    let search_query := searchQueryOf query model_filter
    let req : IssuedRequest :=
      { model := flashModelName
        contents := search_query
        store := svc.file_search_store_name.getD ""
        top_k := max_results }
    match collab req with
    | .success resp => (some req, parseSearchResults resp max_results)
    | .apiError _ _ => (some req, [])
    | .failure _ => (some req, [])

/-! ## The matched product and retrieval (`Orchestrator._retrieve_data`) -/

/-- Modelled from the spec: the `ProductContext` record produced by the
Catalog Store / Identifier Matcher (the `data_loader` module, whose
source is not part of this excerpt).  Its fields are exactly those the
orchestrator reads: `model_number`, `matched_confidence` (a `[0,1]`
score, embedded as a rational), and the `specs` / `media` / `documents`
payload, carried as dynamic values because the defensive consumer code
does not trust their shape. -/
structure ProductContext where
  model_number : String
  matched_confidence : ℚ
  specs : PyVal
  media : PyVal
  documents : PyVal

/-- One call to the unstructured-search collaborator as the orchestrator
makes it: query text, optional model-number filter, result cap. -/
structure SearchCall where
  query : String
  model_filter : Option String
  max_results : Nat
deriving Repr, DecidableEq

/-- The retrieval context assembled by `_retrieve_data`: the
`"structured"` entry (the empty dict when no product matched) and the
`"unstructured"` file-search result list. -/
structure RetrievalContext where
  structured : PyVal
  unstructured : List PyVal

/-- The `"structured"` dictionary built for a matched product:
specs, media and documents taken verbatim. -/
def structuredFor (p : ProductContext) : PyVal :=
  .pdict [("specs", p.specs), ("media", p.media), ("documents", p.documents)]

/-- `Orchestrator._retrieve_data`: populate the structured context from
the matched product (or leave it the empty dict) and make exactly one
`file_search` call — targeted with the model number as filter when a
product matched, broad otherwise, capped at 5 either way.  Also returns
the list of collaborator calls made and the external request issued, for
the statements about request counts. -/
def retrieveData (svc : GeminiService) (collab : IssuedRequest → SearchOutcome)
    (query : String) (pc : Option ProductContext) :
    List SearchCall × Option IssuedRequest × RetrievalContext :=
  match pc with
  | some p =>
    let fs := fileSearch svc collab query (some p.model_number) 5
    ([{ query := query, model_filter := some p.model_number, max_results := 5 }],
     fs.1, { structured := structuredFor p, unstructured := fs.2 })
  | none =>
    let fs := fileSearch svc collab query none 5
    ([{ query := query, model_filter := none, max_results := 5 }],
     fs.1, { structured := .pdict [], unstructured := fs.2 })

/-! ## Prompt construction (`GeminiService._build_prompt`) -/

/-- The note inserted for general queries (no product context). -/
def generalQueryNote : String :=
  "\n**Note:** This is a general query about company policies, programs, or procedures. Do NOT include product-specific details. Answer using ONLY the documentation excerpts below.\n"

/-- The specification lines: every `key: value` pair except the
`Model_NO` / `Product_Name` keys. -/
def specsLines (d : List (String × PyVal)) : List String :=
  (d.filter (fun kv => !(kv.1 == "Model_NO" || kv.1 == "Product_Name"))).map
    (fun kv => "- " ++ kv.1 ++ ": " ++ kv.2.pyStr)

/-- One media entry rendered into prompt lines: a record contributes its
`title`/`url` fields (with `label` as the default title), a bare string
contributes `- label: value`, any other shape contributes nothing. -/
def renderMediaEntry (label : String) (v : PyVal) : List String :=
  match v with
  | .pdict d =>
    ["- " ++ (dictGet d "title" (.str label)).pyStr ++ ": " ++
      (dictGet d "url" (.str "")).pyStr]
  | .str s => ["- " ++ label ++ ": " ++ s]
  | _ => []

/-- The `if videos and isinstance(videos, list):` block: a nonempty list
yields the section header plus one rendered line per entry; anything
else yields nothing. -/
def mediaListLines (header label : String) (v : PyVal) : List String :=
  match v with
  | .plist [] => []
  | .plist xs => header :: (xs.map (renderMediaEntry label)).flatten
  | _ => []

/-- One document entry rendered into prompt lines (records only). -/
def renderDocEntry (v : PyVal) : List String :=
  match v with
  | .pdict d =>
    ["- " ++ (dictGet d "title" (.str "Document")).pyStr ++ " (" ++
      (dictGet d "type" (.str "Document")).pyStr ++ "): " ++
      (dictGet d "url" (.str "")).pyStr]
  | _ => []

/-- The excerpt section body: `enumerate(..., 1)` over all results, a
header line and the text for each dictionary-shaped result (the index
advances over non-dictionary results too, as in the source). -/
def excerptLines (results : List PyVal) : List String :=
  (results.enum.map (fun p =>
    match p.2 with
    | .pdict d =>
      ["\n### Excerpt " ++ toString (p.1 + 1) ++ " (from " ++
        (dictGet d "title" (.str "Unknown")).pyStr ++ ")",
       (dictGet d "text" (.str "")).pyStr]
    | _ => [])).flatten

/-- The `has_product` expression of `_build_prompt`:
`"structured" in context and context["structured"] and
context["structured"].get("specs")` (the context dictionary always
carries the `"structured"` key), collapsed to its truthiness. -/
def hasProductFlag (structured : PyVal) : Except String Bool :=
  if structured.truthy then do
    let sv ← structured.getItem "specs" .pnone
    pure sv.truthy
  else pure false

/-- The `## Product Specifications:` block of `_build_prompt`:
guarded by `"specs" in structured and structured["specs"]`, then
iterating `specs.items()` (which raises on a non-mapping value). -/
def specsSection (structured : PyVal) : Except String (List String) := do
  let present ← pyInOp "specs" structured
  if present then do
    let specsVal ← pyIndex structured "specs"
    if specsVal.truthy then do
      let items ← pyItems specsVal
      pure ("\n## Product Specifications:" :: specsLines items)
    else pure []
  else pure []

/-- The media block of `_build_prompt`, with the defensive
normalization of the source: a truthy non-dictionary media value is
rebound to `{"videos": [], "images": []}`, and the `videos` / `images`
values are read with `.get` only on a dictionary. -/
def mediaSection (structured : PyVal) : Except String (List String) := do
  let present ← pyInOp "media" structured
  if present then do
    let mediaVal ← pyIndex structured "media"
    if mediaVal.truthy then do
      let media :=
        if mediaVal.isDict then mediaVal
        else .pdict [("videos", .plist []), ("images", .plist [])]
      let videos ←
        if media.isDict then media.getItem "videos" (.plist [])
        else pure (.plist [])
      let images ←
        if media.isDict then media.getItem "images" (.plist [])
        else pure (.plist [])
      pure (mediaListLines "\n## Available Videos:" "Video" videos ++
        mediaListLines "\n## Available Images:" "Image" images)
    else pure []
  else pure []

/-- The `## Available Documents:` block of `_build_prompt`. -/
def docsSection (structured : PyVal) : Except String (List String) := do
  let present ← pyInOp "documents" structured
  if present then do
    let docsVal ← pyIndex structured "documents"
    if docsVal.truthy then
      pure (match docsVal with
        | .plist ds => "\n## Available Documents:" :: (ds.map renderDocEntry).flatten
        | _ => [])
    else pure []
  else pure []

/-- `GeminiService._build_prompt`, in the `Except String` monad: an
`error` value stands for an exception raised while assembling the
prompt (e.g. `.items()` on a non-mapping specs value). -/
def buildPrompt (query : String) (context : RetrievalContext) :
    Except String String := do
  let parts0 : List String := ["User Query: " ++ query ++ "\n"]
  let hasProduct ← hasProductFlag context.structured
  let parts1 := parts0 ++ (if hasProduct then [] else [generalQueryNote])
  let parts2 ←
    if context.structured.truthy then do
      let specsParts ← specsSection context.structured
      let mediaParts ← mediaSection context.structured
      let docParts ← docsSection context.structured
      pure (specsParts ++ mediaParts ++ docParts)
    else pure ([] : List String)
  let parts3 :=
    if context.unstructured.isEmpty then []
    else "\n## Relevant Documentation Excerpts:" :: excerptLines context.unstructured
  pure (String.intercalate "\n" (parts1 ++ parts2 ++ parts3))

/-! ## Source extraction (`GeminiService._extract_sources`) -/

/-- One iteration of the unstructured loop of `_extract_sources`: for a
dictionary-shaped result, format `title` (with default
`"Documentation"`) plus an optional `" (Page ...)"` suffix, and append
it unless already present; other shapes are skipped. -/
def unstructuredSourceStep (acc : List PyVal) (r : PyVal) : List PyVal :=
  match r with
  | .pdict d =>
    let title := dictGet d "title" (.str "Documentation")
    let page := dictGet d "page" (.str "")
    let source :=
      if page.truthy then title.pyStr ++ " (Page " ++ page.pyStr ++ ")"
      else title.pyStr
    if acc.contains (PyVal.str source) then acc else acc ++ [PyVal.str source]
  | _ => acc

/-- The unstructured half of `_extract_sources`. -/
def unstructuredSources (results : List PyVal) : List PyVal :=
  results.foldl unstructuredSourceStep []

/-- One iteration of the document loop of `_extract_sources`: append a
dictionary-shaped document entry whose `title` is truthy and not already
present; other shapes are skipped. -/
def docSourceStep (acc : List PyVal) (doc : PyVal) : List PyVal :=
  match doc with
  | .pdict d =>
    let title := dictGet d "title" (.str "")
    if title.truthy && !acc.contains title then acc ++ [title] else acc
  | _ => acc

/-- The document half of `_extract_sources`. -/
def appendDocSources (sources : List PyVal) (ds : List PyVal) : List PyVal :=
  ds.foldl docSourceStep sources

/-- `GeminiService._extract_sources`: sources from the unstructured
results first, then document titles not already present.  The membership
test `"documents" in context["structured"]` raises on a `None`
structured value, hence the `Except`. -/
def extractSources (context : RetrievalContext) : Except String (List PyVal) := do
  let sources := unstructuredSources context.unstructured
  let hasDocs ← pyInOp "documents" context.structured
  if hasDocs then do
    let docsVal ← pyIndex context.structured "documents"
    match docsVal with
    | .plist ds => pure (appendDocSources sources ds)
    | _ => pure sources
  else pure sources

/-! ## Generation (`GeminiService.generate_response`) -/

/-- The request sent to the generation collaborator: model, prompt and
sampling configuration (`top_p=0.95`, `top_k=40`,
`max_output_tokens=4096`, temperature by mode) plus the system
instruction (`None` when the given prompt is falsy). -/
structure GenRequest where
  model : String
  contents : String
  temperature : ℚ
  top_p : ℚ
  top_k : Nat
  max_output_tokens : Nat
  system_instruction : Option String
deriving Repr, DecidableEq

/-- The dictionary returned by `generate_response`. -/
structure LlmResponse where
  response : String
  sources : List PyVal
  model_used : String

/-- `GeminiService.generate_response`: resolve the model name (unknown
modes fall back to flash), build the prompt, issue one generation
request, then extract sources.  Any exception — from prompt building,
the collaborator, or source extraction — is re-raised unchanged (the
`except` block logs and `raise`s).  The list of generation requests
actually issued is returned alongside, for the statements about retry
behaviour. -/
def generateResponse (gen : GenRequest → Except String String)
    (query : String) (context : RetrievalContext) (mode : String)
    (system_prompt : Option String) :
    List GenRequest × Except String LlmResponse :=
  let model_name := modelNameFor mode
  match buildPrompt query context with
  | .error e => ([], .error e)
  | .ok full_prompt =>
    let req : GenRequest :=
      { model := model_name
        contents := full_prompt
        temperature := temperatureFor mode
        top_p := 95/100
        top_k := 40
        max_output_tokens := 4096
        system_instruction :=
          match system_prompt with
          | some sp => if sp.isEmpty then none else some sp
          | none => none }
    match gen req with
    | .error e => ([req], .error e)
    | .ok text =>
      match extractSources context with
      | .error e => ([req], .error e)
      | .ok sources =>
        ([req], .ok { response := text, sources := sources, model_used := model_name })

/-! ## Output formatting (`Orchestrator._format_output`) -/

/-- The `media_assets` dictionary of the final output. -/
structure MediaAssets where
  specs : PyVal
  videos : PyVal
  images : PyVal
  documents : PyVal

/-- The final pipeline output (`timestamp` is the formatted UTC instant,
passed in as a string). -/
structure Output where
  markdown_response : String
  media_assets : Option MediaAssets
  sources : List PyVal
  model_used : String
  matched_product : Option String
  confidence : ℚ
  timestamp : String

/-- `Orchestrator._format_output`: `media_assets` is built only when a
product matched (`specs`/`documents` verbatim, `videos`/`images` via
`media.get`, which raises on a non-dictionary media value);
`matched_product` and `confidence` come from the product context or
default to `None` / `0.0`.  The retrieval context is accepted but, as in
the source, not consulted. -/
def formatOutput (llm : LlmResponse) (pc : Option ProductContext)
    (rctx : RetrievalContext) (now : String) : Except String Output := do
  let media_assets : Option MediaAssets ←
    match pc with
    | some p => do
      let videos ← p.media.getItem "videos" (.plist [])
      let images ← p.media.getItem "images" (.plist [])
      pure (some { specs := p.specs, videos := videos, images := images,
                   documents := p.documents })
    | none => pure none
  pure
    { markdown_response := llm.response
      media_assets := media_assets
      sources := llm.sources
      model_used := llm.model_used
      matched_product := pc.map (fun p => p.model_number)
      confidence := match pc with | some p => p.matched_confidence | none => 0
      timestamp := now ++ "Z" }

/-! ## The pipeline (`Orchestrator.process_query`) and the endpoint
(`routers/api.py process_chat`) -/

/-- The observable trace of one pipeline run: the collaborator-level
search calls made, the external search request issued (if any), the
generation requests issued, the retrieval context assembled, and the
final result (`error` = the run raised). -/
structure RunTrace where
  searchCalls : List SearchCall
  issuedSearch : Option IssuedRequest
  genCalls : List GenRequest
  context : RetrievalContext
  result : Except String Output

/-- `Orchestrator.process_query`: extraction (the matcher result is the
`pc` parameter — the matcher lives in the `data_loader` module outside
this excerpt), retrieval, synthesis with the selected system prompt, and
formatting.  The surrounding `try/except` logs and re-raises, so errors
pass through unchanged. -/
def processQuery (svc : GeminiService) (pm : PromptsManager)
    (searchCollab : IssuedRequest → SearchOutcome)
    (gen : GenRequest → Except String String)
    (pc : Option ProductContext) (query : String) (mode : String)
    (now : String) : RunTrace :=
  let r := retrieveData svc searchCollab query pc
  let rctx := r.2.2
  let system_prompt := selectedPrompt pm query
  let g := generateResponse gen query rctx mode (some system_prompt)
  match g.2 with
  | .error e =>
    { searchCalls := r.1, issuedSearch := r.2.1, genCalls := g.1,
      context := rctx, result := .error e }
  | .ok llm =>
    match formatOutput llm pc rctx now with
    | .error e =>
      { searchCalls := r.1, issuedSearch := r.2.1, genCalls := g.1,
        context := rctx, result := .error e }
    | .ok out =>
      { searchCalls := r.1, issuedSearch := r.2.1, genCalls := g.1,
        context := rctx, result := .ok out }

/-- An `HTTPException` as raised by the chat endpoint. -/
structure HTTPErrorResponse where
  status_code : Nat
  detail : String
deriving Repr, DecidableEq

/-- `process_chat` of `routers/api.py`: run the pipeline and return its
output; any exception is converted into a single HTTP 500 failure whose
detail embeds the error message. -/
def processChat (svc : GeminiService) (pm : PromptsManager)
    (searchCollab : IssuedRequest → SearchOutcome)
    (gen : GenRequest → Except String String)
    (pc : Option ProductContext) (query : String) (mode : String)
    (now : String) : Except HTTPErrorResponse Output :=
  match (processQuery svc pm searchCollab gen pc query mode now).result with
  | .ok out => .ok out
  | .error e => .error { status_code := 500, detail := "Error processing query: " ++ e }

/-! ## Auxiliary predicates and concrete instances used in statements -/

/-- The payload shapes under which the synthesis and formatting stages
are exception-free: a specs value that is a mapping (or falsy, in which
case it is never iterated) and a media value that is a mapping (read
with `.get` by `_format_output`). -/
def ProductContext.wellShapedPayload (p : ProductContext) : Bool :=
  (p.specs.isDict || !p.specs.truthy) && p.media.isDict

/-- Lifts `wellShapedPayload` to an optional matcher result. -/
def matchWellShaped : Option ProductContext → Bool
  | none => true
  | some p => p.wellShapedPayload

/-- The structured context value assembled by `_retrieve_data` for an
optional matcher result. -/
def structuredOfMatch : Option ProductContext → PyVal
  | some p => structuredFor p
  | none => .pdict []

/-- The entry list of the structured-context dictionary assembled by
the retrieval stage for an optional matcher result. -/
def structuredEntriesOfMatch : Option ProductContext → List (String × PyVal)
  | some p => [("specs", p.specs), ("media", p.media), ("documents", p.documents)]
  | none => []

/-- An excerpt record of the shape `file_search` produces:
`{"title": ..., "text": ..., "uri": ...}` with string values. -/
def excerptRecord (title text uri : String) : PyVal :=
  .pdict [("title", .str title), ("text", .str text), ("uri", .str uri)]

/-- A catalog document record `{title, type, url}` with string values,
as the data model specifies for `Product.documents`. -/
def documentRecord (title ty url : String) : PyVal :=
  .pdict [("title", .str title), ("type", .str ty), ("url", .str url)]

/-- Modelled from the spec: one step of first-seen order-preserving
de-duplication of a title list. -/
def dedupStep (acc : List String) (t : String) : List String :=
  if acc.contains t then acc else acc ++ [t]

/-- Modelled from the spec: first-seen order-preserving de-duplication
of a title list, the reference against which the source-extraction
order/de-duplication behaviour is compared. -/
def specFirstSeenDedup (l : List String) : List String :=
  l.foldl dedupStep []

/-- Concrete product for the C1 witness. -/
def c1Product : ProductContext :=
  { model_number := "10.FGC.4003CP"
    matched_confidence := 1
    specs := .pdict [("List_Price", .str "299")]
    media := .pdict [("videos", .plist []), ("images", .plist [])]
    documents := .plist [] }

/-- Concrete generation result for the C1 witness. -/
def c1Llm : LlmResponse :=
  { response := "answer", sources := [], model_used := "gemini-2.5-flash" }

/-- The concrete formatted output for the C1 witness. -/
def c1Out : Output :=
  { markdown_response := "answer"
    media_assets := some
      { specs := .pdict [("List_Price", .str "299")]
        videos := .plist []
        images := .plist []
        documents := .plist [] }
    sources := []
    model_used := "gemini-2.5-flash"
    matched_product := some "10.FGC.4003CP"
    confidence := 1
    timestamp := "2024-01-01T00:00:00Z" }


/-- Concrete service with a configured file-search store, for the C3
witness. -/
def c3Svc : GeminiService := { file_search_store_name := some "fileSearchStores/storeA" }

/-- Concrete prompt table for the C3 witness. -/
def c3Pm : PromptsManager :=
  { synthesis_prompt := "S", troubleshooting_prompt := "T", comparison_prompt := "C" }

/-- Concrete service with a configured file-search store, for the C5
witness. -/
def c5Svc : GeminiService := { file_search_store_name := some "fileSearchStores/storeB" }

/-- Concrete service without a configured file-search store, for the C5
counterexample. -/
def c5NoStoreSvc : GeminiService := { file_search_store_name := none }

/-- Concrete prompt table for the C5 witness and counterexample. -/
def c5Pm : PromptsManager :=
  { synthesis_prompt := "S", troubleshooting_prompt := "T", comparison_prompt := "C" }

/-- Concrete matched product for the C5 witness and counterexample. -/
def c5Product : ProductContext :=
  { model_number := "10.FGC.4003CP"
    matched_confidence := 1
    specs := .pdict [("List_Price", .str "299")]
    media := .pdict [("videos", .plist []), ("images", .plist [])]
    documents := .plist [] }

/-- Concrete (failing) search collaborator for the C5 witness and
counterexample. -/
def c5Collab : IssuedRequest → SearchOutcome := fun _ => .failure "down"

/-- Concrete (succeeding) generation collaborator for the C5 witness and
counterexample. -/
def c5Gen : GenRequest → Except String String := fun _ => .ok "answer"

/-- Concrete retrieved context for the C7 witness. -/
def c7Ctx : RetrievedContext :=
  { title := some "Install Guide", text := some "body", uri := some "u1" }

/-- First grounding chunk for the C7 witness. -/
def c7Chunk1 : GroundingChunk := ⟨some c7Ctx⟩

/-- Second grounding chunk (no retrieved context) for the C7 witness. -/
def c7Chunk2 : GroundingChunk := ⟨none⟩

/-- Grounding metadata carrying two chunks, for the C7 witness. -/
def c7Meta : GroundingMetadata := ⟨some [c7Chunk1, c7Chunk2]⟩

/-- Response candidate for the C7 witness. -/
def c7Cand : Candidate := ⟨some c7Meta⟩

/-- Search response for the C7 witness. -/
def c7Resp : SearchResponse := ⟨some [c7Cand]⟩

/-- Concrete service with a configured file-search store, for the C7
witness. -/
def c7Svc : GeminiService := { file_search_store_name := some "fileSearchStores/storeC" }

/-- Search collaborator that always answers with the C7 response. -/
def c7Collab : IssuedRequest → SearchOutcome := fun _ => .success c7Resp

/-- Concrete service for the C9 witness. -/
def c9Svc : GeminiService := { file_search_store_name := none }

/-- Concrete prompt table for the C9 witness. -/
def c9Pm : PromptsManager :=
  { synthesis_prompt := "S", troubleshooting_prompt := "T", comparison_prompt := "C" }

/-- Concrete search collaborator for the C9 witness. -/
def c9Collab : IssuedRequest → SearchOutcome := fun _ => .failure "down"

/-! ## Theorems -/

/-- C2: prompt-strategy selection is a pure function of the lower-cased
query and the two fixed keyword tables; the troubleshooting prompt is
chosen when a troubleshooting keyword occurs, but the comparison check
runs afterwards and overrides it, so when both keyword sets match the
comparison prompt wins; with no keyword of either set the general
synthesis prompt is used. -/
theorem strategy_selection_comparison_overrides (pm : PromptsManager) (query : String) :
    selectedPrompt pm query =
      (if comparison_keywords.any (fun k => pyIn k query.toLower) then
        pm.comparison_prompt
      else if troubleshooting_keywords.any (fun k => pyIn k query.toLower) then
        pm.troubleshooting_prompt
      else pm.synthesis_prompt) := by
  unfold selectedPrompt
  by_cases hc : comparison_keywords.any (fun k => pyIn k query.toLower) = true <;>
    by_cases ht : troubleshooting_keywords.any (fun k => pyIn k query.toLower) = true <;>
    simp [hc, ht]

/-- C10: any mode string other than `"flash"` and `"reasoning"` is not
rejected: the model lookup falls back to the flash model, while the
temperature is the non-flash 0.4 because 0.2 requires the mode to equal
`"flash"` exactly. -/
theorem unknown_mode_flash_model_nonflash_temperature (mode : String)
    (h1 : mode ≠ "flash") (h2 : mode ≠ "reasoning") :
    modelNameFor mode = "gemini-2.5-flash" ∧ temperatureFor mode = 4/10 := by
  constructor
  · have e1 : (mode == "flash") = false := beq_eq_false_iff_ne.mpr h1
    have e2 : (mode == "reasoning") = false := beq_eq_false_iff_ne.mpr h2
    have hlook : models.lookup mode = none := by
      simp [models, List.lookup, e1, e2]
    rw [modelNameFor, hlook]
    rfl
  · simp [temperatureFor, h1]

/-- Witness for C10 at the concrete unknown mode `"pro"`. -/
theorem unknown_mode_flash_model_nonflash_temperature_witness :
    modelNameFor "pro" = "gemini-2.5-flash" ∧ temperatureFor "pro" = 4/10 :=
  unknown_mode_flash_model_nonflash_temperature "pro" (by decide) (by decide)

/-- C1: in every formatted output, `media_assets` is `None` exactly when
no product was matched — whatever the retrieval context holds — and when
a product was matched its `specs` field is the matched product's specs
verbatim, hence non-empty (truthy) exactly when the product's specs
are. -/
theorem media_assets_null_iff_no_match (llm : LlmResponse) (pc : Option ProductContext)
    (rctx : RetrievalContext) (now : String) (out : Output)
    (h : formatOutput llm pc rctx now = .ok out) :
    (pc = none → out.media_assets = none) ∧
    out.media_assets.map MediaAssets.specs = pc.map ProductContext.specs ∧
    (out.media_assets.map fun ma => ma.specs.truthy) =
      (pc.map fun p => p.specs.truthy) := by
  cases pc with
  | none =>
    simp only [formatOutput, pure, Except.pure, bind, Except.bind] at h
    cases h
    simp
  | some p =>
    cases hm : p.media with
    | pdict d =>
      simp only [formatOutput, hm, PyVal.getItem, pure, Except.pure, bind, Except.bind] at h
      cases h
      simp
    | str s =>
      simp [formatOutput, hm, PyVal.getItem, pure, Except.pure, bind, Except.bind] at h
    | plist xs =>
      simp [formatOutput, hm, PyVal.getItem, pure, Except.pure, bind, Except.bind] at h
    | pnone =>
      simp [formatOutput, hm, PyVal.getItem, pure, Except.pure, bind, Except.bind] at h

/-- Witness for C1 at a concrete matched product. -/
theorem media_assets_null_iff_no_match_witness :
    (some c1Product = (none : Option ProductContext) → c1Out.media_assets = none) ∧
    c1Out.media_assets.map MediaAssets.specs = (some c1Product).map ProductContext.specs ∧
    (c1Out.media_assets.map fun ma => ma.specs.truthy) =
      ((some c1Product).map fun p => p.specs.truthy) :=
  media_assets_null_iff_no_match c1Llm (some c1Product)
    { structured := .pdict [], unstructured := [] } "2024-01-01T00:00:00" c1Out rfl

/-! ## Shared lemmas: success of the defensive stages on dictionary-shaped
structured contexts -/

/-- Success of an `Except` bind given success of both stages. -/
theorem bind_ok_of {α β : Type} {x : Except String α} {f : α → Except String β}
    (hx : ∃ a, x = .ok a) (hf : ∀ a, x = .ok a → ∃ b, f a = .ok b) :
    ∃ b, (x >>= f) = .ok b := by
  rcases hx with ⟨a, ha⟩
  rcases hf a ha with ⟨b, hb⟩
  refine ⟨b, ?_⟩
  rw [ha]
  simpa [bind, Except.bind] using hb

theorem lookup_isSome_of_any (d : List (String × PyVal)) (key : String)
    (h : d.any (fun kv => kv.1 == key) = true) : ∃ v, d.lookup key = some v := by
  induction d with
  | nil => simp at h
  | cons kv rest ih =>
    rcases kv with ⟨k, v⟩
    simp only [List.any_cons, Bool.or_eq_true] at h
    rcases h with h | h
    · refine ⟨v, ?_⟩
      have hk : k = key := by simpa using h
      simp [List.lookup, hk]
    · rcases ih h with ⟨w, hw⟩
      by_cases hk : (key == k)
      · exact ⟨v, by simp [List.lookup, hk]⟩
      · exact ⟨w, by simp [List.lookup, hk, hw]⟩

theorem pyInOp_pdict_inv {key : String} {d : List (String × PyVal)} {b : Bool}
    (h : pyInOp key (.pdict d) = .ok b) : d.any (fun kv => kv.1 == key) = b := by
  simpa [pyInOp] using h

theorem pyIndex_pdict_inv {key : String} {d : List (String × PyVal)} {v : PyVal}
    (h : pyIndex (.pdict d) key = .ok v) : d.lookup key = some v := by
  have h2 : (match d.lookup key with
    | some x => (Except.ok x : Except String PyVal)
    | none => Except.error "KeyError") = .ok v := h
  cases hl : d.lookup key with
  | some x =>
    rw [hl] at h2
    simp only [Except.ok.injEq] at h2
    exact congrArg some h2
  | none =>
    rw [hl] at h2
    simp at h2

theorem hasProductFlag_pdict_ok (d : List (String × PyVal)) :
    ∃ b, hasProductFlag (.pdict d) = .ok b := by
  unfold hasProductFlag
  by_cases h : (PyVal.pdict d).truthy
  · rw [if_pos h]
    exact bind_ok_of ⟨_, rfl⟩ (fun a _ => ⟨_, rfl⟩)
  · rw [if_neg h]
    exact ⟨false, rfl⟩

theorem specsSection_pdict_ok (d : List (String × PyVal))
    (hs : ∀ v, d.lookup "specs" = some v → (v.isDict || !v.truthy) = true) :
    ∃ a, specsSection (.pdict d) = .ok a := by
  unfold specsSection
  refine bind_ok_of ⟨_, rfl⟩ ?_
  intro present hpres
  by_cases hp : present
  · rw [if_pos hp]
    have hk : d.any (fun kv => kv.1 == "specs") = true := by
      rw [pyInOp_pdict_inv hpres]; exact hp
    rcases lookup_isSome_of_any d "specs" hk with ⟨v, hv⟩
    refine bind_ok_of ⟨v, by simp [pyIndex, hv]⟩ ?_
    intro w hw
    have hvw : d.lookup "specs" = some w := pyIndex_pdict_inv hw
    by_cases ht : w.truthy
    · rw [if_pos ht]
      have hd : w.isDict = true := by
        rcases Bool.or_eq_true_iff.mp (hs w hvw) with h | h
        · exact h
        · rw [ht] at h; simp at h
      rcases w with s | wd | xs | _ <;> simp [PyVal.isDict] at hd
      exact bind_ok_of ⟨wd, rfl⟩ (fun items _ => ⟨_, rfl⟩)
    · rw [if_neg ht]
      exact ⟨[], rfl⟩
  · rw [if_neg hp]
    exact ⟨[], rfl⟩

theorem mediaSection_pdict_ok (d : List (String × PyVal)) :
    ∃ a, mediaSection (.pdict d) = .ok a := by
  unfold mediaSection
  refine bind_ok_of ⟨_, rfl⟩ ?_
  intro present hpres
  by_cases hp : present
  · rw [if_pos hp]
    have hk : d.any (fun kv => kv.1 == "media") = true := by
      rw [pyInOp_pdict_inv hpres]; exact hp
    rcases lookup_isSome_of_any d "media" hk with ⟨v, hv⟩
    refine bind_ok_of ⟨v, by simp [pyIndex, hv]⟩ ?_
    intro w hw
    by_cases ht : w.truthy
    · rw [if_pos ht]
      by_cases hd : w.isDict
      · rcases w with s | wd | xs | _ <;> simp [PyVal.isDict] at hd
        exact bind_ok_of ⟨dictGet wd "videos" (.plist []), rfl⟩
          (fun videos _ => bind_ok_of ⟨dictGet wd "images" (.plist []), rfl⟩
            (fun images _ => ⟨_, rfl⟩))
      · rw [if_neg hd]
        rcases w with s | wd | xs | _ <;> simp [PyVal.isDict] at hd <;>
          exact bind_ok_of ⟨_, rfl⟩ (fun videos _ => bind_ok_of ⟨_, rfl⟩ (fun images _ => ⟨_, rfl⟩))
    · rw [if_neg ht]
      exact ⟨[], rfl⟩
  · rw [if_neg hp]
    exact ⟨[], rfl⟩

theorem docsSection_pdict_ok (d : List (String × PyVal)) :
    ∃ a, docsSection (.pdict d) = .ok a := by
  unfold docsSection
  refine bind_ok_of ⟨_, rfl⟩ ?_
  intro present hpres
  by_cases hp : present
  · rw [if_pos hp]
    have hk : d.any (fun kv => kv.1 == "documents") = true := by
      rw [pyInOp_pdict_inv hpres]; exact hp
    rcases lookup_isSome_of_any d "documents" hk with ⟨v, hv⟩
    refine bind_ok_of ⟨v, by simp [pyIndex, hv]⟩ ?_
    intro w hw
    by_cases ht : w.truthy
    · rw [if_pos ht]
      exact ⟨_, rfl⟩
    · rw [if_neg ht]
      exact ⟨[], rfl⟩
  · rw [if_neg hp]
    exact ⟨[], rfl⟩

theorem buildPrompt_pdict_ok (query : String) (d : List (String × PyVal)) (us : List PyVal)
    (hs : ∀ v, d.lookup "specs" = some v → (v.isDict || !v.truthy) = true) :
    ∃ s, buildPrompt query ⟨.pdict d, us⟩ = .ok s := by
  rcases hasProductFlag_pdict_ok d with ⟨b0, hb⟩
  rcases specsSection_pdict_ok d hs with ⟨a1, h1⟩
  rcases mediaSection_pdict_ok d with ⟨a2, h2⟩
  rcases docsSection_pdict_ok d with ⟨a3, h3⟩
  cases hres : buildPrompt query ⟨.pdict d, us⟩ with
  | ok s => exact ⟨s, rfl⟩
  | error e =>
    exfalso
    unfold buildPrompt at hres
    dsimp only at hres
    rw [hb] at hres
    simp only [bind, Except.bind] at hres
    by_cases ht : (PyVal.pdict d).truthy
    · rw [if_pos ht, h1] at hres
      simp only [bind, Except.bind] at hres
      rw [h2] at hres
      simp only [bind, Except.bind] at hres
      rw [h3] at hres
      simp [bind, Except.bind, pure, Except.pure] at hres
    · rw [if_neg ht] at hres
      simp [bind, Except.bind, pure, Except.pure] at hres

theorem extractSources_pdict_ok (d : List (String × PyVal)) (us : List PyVal) :
    ∃ ss, extractSources ⟨.pdict d, us⟩ = .ok ss := by
  unfold extractSources
  refine bind_ok_of ⟨_, rfl⟩ ?_
  intro hasDocs hpres
  by_cases h : hasDocs
  · rw [if_pos h]
    have hk : d.any (fun kv => kv.1 == "documents") = true := by
      rw [pyInOp_pdict_inv hpres]
      exact h
    rcases lookup_isSome_of_any d "documents" hk with ⟨v, hv⟩
    refine bind_ok_of ⟨v, by simp [pyIndex, hv]⟩ ?_
    intro w _
    cases w <;> exact ⟨_, rfl⟩
  · rw [if_neg h]
    exact ⟨_, rfl⟩

/-! ## Shared lemmas: the retrieval and synthesis stages on pipeline-shaped
contexts -/

/-- C8 helper: a truthy non-dictionary media value contributes no media
lines, exactly like an absent one. -/
theorem mediaSection_threeKeys_nondict (sv dv media : PyVal) (hm : media.isDict = false) :
    mediaSection (.pdict [("specs", sv), ("media", media), ("documents", dv)]) = .ok [] := by
  cases media with
  | pnone => rfl
  | pdict dd => simp [PyVal.isDict] at hm
  | str s =>
    by_cases hse : s.isEmpty <;>
      simp [mediaSection, pyInOp, pyIndex, PyVal.truthy, hse, PyVal.isDict, PyVal.getItem,
        dictGet, mediaListLines, bind, Except.bind, pure, Except.pure, List.lookup]
  | plist xs =>
    cases xs <;>
      simp [mediaSection, pyInOp, pyIndex, PyVal.truthy, PyVal.isDict, PyVal.getItem,
        dictGet, mediaListLines, bind, Except.bind, pure, Except.pure, List.lookup]

/-- The `"specs"` entry of a three-key structured dictionary whose specs
value is a dictionary satisfies the shape condition of
`specsSection_pdict_ok`. -/
theorem specs_shape_three (sd : List (String × PyVal)) (media dv : PyVal) :
    ∀ v, List.lookup "specs" [("specs", PyVal.pdict sd), ("media", media), ("documents", dv)] = some v →
      (v.isDict || !v.truthy) = true := by
  intro v hv
  have hv2 : some (PyVal.pdict sd) = some v := hv
  injection hv2 with hv3
  rw [← hv3]
  simp [PyVal.isDict]

/-- `file_search` returns the empty list whenever the collaborator
outcome is an exception (`APIError` or any other). -/
theorem fileSearch_failure_empty (svc : GeminiService) (collab : IssuedRequest → SearchOutcome)
    (query : String) (mf : Option String) (mr : Nat)
    (herr : ∀ req, (collab req).isFailure = true) :
    (fileSearch svc collab query mf mr).2 = [] := by
  unfold fileSearch
  by_cases hst : strOptTruthy svc.file_search_store_name = false
  · rw [if_pos hst]
  · rw [if_neg hst]
    dsimp only
    cases hc : collab { model := flashModelName, contents := searchQueryOf query mf, store := svc.file_search_store_name.getD "", top_k := mr } with
    | success resp =>
      have h := herr { model := flashModelName, contents := searchQueryOf query mf, store := svc.file_search_store_name.getD "", top_k := mr }
      rw [hc] at h
      simp [SearchOutcome.isFailure] at h
    | apiError c m => rfl
    | failure m => rfl

/-- The retrieval context assembled by `_retrieve_data`, as an explicit
record: the structured entries for the matcher result, and the installed
`file_search` results. -/
theorem retrieveData_context (svc : GeminiService) (collab : IssuedRequest → SearchOutcome)
    (query : String) (pc : Option ProductContext) :
    (retrieveData svc collab query pc).2.2 =
      { structured := .pdict (structuredEntriesOfMatch pc)
        unstructured := (fileSearch svc collab query (pc.map ProductContext.model_number) 5).2 } := by
  cases pc <;> rfl

/-- `_format_output` succeeds whenever the matched product (if any) has a
dictionary-shaped media value. -/
theorem formatOutput_ok (llm : LlmResponse) (pc : Option ProductContext)
    (rctx : RetrievalContext) (now : String) (h : matchWellShaped pc = true) :
    ∃ out, formatOutput llm pc rctx now = .ok out := by
  cases pc with
  | none => exact ⟨_, rfl⟩
  | some p =>
    have hm : p.media.isDict = true := by
      unfold matchWellShaped ProductContext.wellShapedPayload at h
      exact (Bool.and_eq_true_iff.mp h).2
    cases hres : formatOutput llm (some p) rctx now with
    | ok out => exact ⟨out, rfl⟩
    | error e =>
      exfalso
      cases hpm : p.media with
      | pdict md =>
        unfold formatOutput at hres
        dsimp only at hres
        rw [hpm] at hres
        simp [PyVal.getItem, bind, Except.bind, pure, Except.pure] at hres
      | str s => rw [hpm] at hm; simp [PyVal.isDict] at hm
      | plist xs => rw [hpm] at hm; simp [PyVal.isDict] at hm
      | pnone => rw [hpm] at hm; simp [PyVal.isDict] at hm

/-- `generate_response` succeeds when prompt building, the generation
collaborator, and source extraction all succeed. -/
theorem generateResponse_ok_of (f : GenRequest → String) (query : String)
    (ctx : RetrievalContext) (mode : String) (sp : Option String)
    (s : String) (hb : buildPrompt query ctx = .ok s)
    (ss : List PyVal) (he : extractSources ctx = .ok ss) :
    ∃ llm, (generateResponse (fun req => .ok (f req)) query ctx mode sp).2 = .ok llm := by
  cases hres : (generateResponse (fun req => .ok (f req)) query ctx mode sp).2 with
  | ok llm => exact ⟨llm, rfl⟩
  | error e2 =>
    exfalso
    unfold generateResponse at hres
    rw [hb] at hres
    dsimp only at hres
    rw [he] at hres
    simp at hres

/-- When the generation collaborator raises, `generate_response` issues
exactly one request and re-raises the same error. -/
theorem generateResponse_error_of (e : String) (query : String)
    (ctx : RetrievalContext) (mode : String) (sp : Option String)
    (s : String) (hb : buildPrompt query ctx = .ok s) :
    (generateResponse (fun _ => .error e) query ctx mode sp).1.length = 1 ∧
    (generateResponse (fun _ => .error e) query ctx mode sp).2 = .error e := by
  unfold generateResponse
  rw [hb]
  exact ⟨rfl, rfl⟩

/-- The structured entries of a well-shaped matcher result satisfy the
specs-shape condition of `specsSection_pdict_ok`. -/
theorem structuredEntries_specs_shape (pc : Option ProductContext)
    (hpc : matchWellShaped pc = true) :
    ∀ v, (structuredEntriesOfMatch pc).lookup "specs" = some v →
      (v.isDict || !v.truthy) = true := by
  intro v hv
  cases pc with
  | none => simp [structuredEntriesOfMatch, List.lookup] at hv
  | some p =>
    have hv2 : some p.specs = some v := hv
    injection hv2 with hv3
    rw [← hv3]
    unfold matchWellShaped ProductContext.wellShapedPayload at hpc
    exact (Bool.and_eq_true_iff.mp hpc).1

/-- A full pipeline run with a succeeding generation collaborator and a
well-shaped matcher result produces a successful result, for every
search-collaborator behaviour. -/
theorem processQuery_ok_of_gen_ok (svc : GeminiService) (pm : PromptsManager)
    (collab : IssuedRequest → SearchOutcome) (f : GenRequest → String)
    (pc : Option ProductContext) (query mode now : String)
    (hpc : matchWellShaped pc = true) :
    ∃ out, (processQuery svc pm collab (fun req => .ok (f req)) pc query mode now).result = .ok out := by
  have hrc := retrieveData_context svc collab query pc
  rcases buildPrompt_pdict_ok query (structuredEntriesOfMatch pc)
      ((fileSearch svc collab query (pc.map ProductContext.model_number) 5).2)
      (structuredEntries_specs_shape pc hpc) with ⟨s, hbp⟩
  rcases extractSources_pdict_ok (structuredEntriesOfMatch pc)
      ((fileSearch svc collab query (pc.map ProductContext.model_number) 5).2) with ⟨ss, hes⟩
  rcases generateResponse_ok_of f query _ mode (some (selectedPrompt pm query)) s hbp ss hes with ⟨llm, hllm⟩
  rcases formatOutput_ok llm pc
      (RetrievalContext.mk (.pdict (structuredEntriesOfMatch pc))
        ((fileSearch svc collab query (pc.map ProductContext.model_number) 5).2)) now hpc with ⟨out, hfo⟩
  cases hres : (processQuery svc pm collab (fun req => .ok (f req)) pc query mode now).result with
  | ok o => exact ⟨o, rfl⟩
  | error e =>
    exfalso
    unfold processQuery at hres
    dsimp only at hres
    rw [hrc] at hres
    rw [hllm] at hres
    dsimp only at hres
    rw [hfo] at hres
    simp at hres

/-- The retrieval-stage observables of a run (collaborator calls, issued
external request, assembled context) do not depend on the synthesis or
formatting outcome. -/
theorem processQuery_retrieval_projections (svc : GeminiService) (pm : PromptsManager)
    (collab : IssuedRequest → SearchOutcome) (gen : GenRequest → Except String String)
    (pc : Option ProductContext) (query mode now : String) :
    (processQuery svc pm collab gen pc query mode now).searchCalls = (retrieveData svc collab query pc).1 ∧
    (processQuery svc pm collab gen pc query mode now).issuedSearch = (retrieveData svc collab query pc).2.1 ∧
    (processQuery svc pm collab gen pc query mode now).context = (retrieveData svc collab query pc).2.2 := by
  unfold processQuery
  dsimp only
  cases hg : (generateResponse gen query (retrieveData svc collab query pc).2.2 mode (some (selectedPrompt pm query))).2 with
  | error e => exact ⟨rfl, rfl, rfl⟩
  | ok llm =>
    dsimp only
    cases hf : formatOutput llm pc (retrieveData svc collab query pc).2.2 now with
    | error e => exact ⟨rfl, rfl, rfl⟩
    | ok out => exact ⟨rfl, rfl, rfl⟩

/-- The parsed result list never exceeds `max_results`. -/
theorem parseSearchResults_length_le (resp : SearchResponse) (mr : Nat) :
    (parseSearchResults resp mr).length ≤ mr := by
  cases hcand : resp.candidates with
  | none => simp [parseSearchResults, hcand]
  | some cs =>
    cases cs with
    | nil => simp [parseSearchResults, hcand]
    | cons c rest =>
      cases hg : c.grounding_metadata with
      | none => simp [parseSearchResults, hcand, hg]
      | some g =>
        cases hch : g.grounding_chunks with
        | none => simp [parseSearchResults, hcand, hg, hch]
        | some chunks =>
          cases he : chunks.isEmpty with
          | true => simp [parseSearchResults, hcand, hg, hch, he]
          | false =>
            simp only [parseSearchResults, hcand, hg, hch, he, Bool.false_eq_true, if_false,
              List.length_map, List.length_take]
            exact min_le_left _ _

/-- The `file_search` result list never exceeds `max_results`. -/
theorem fileSearch_length_le (svc : GeminiService) (collab : IssuedRequest → SearchOutcome)
    (query : String) (mf : Option String) (mr : Nat) :
    (fileSearch svc collab query mf mr).2.length ≤ mr := by
  unfold fileSearch
  by_cases hst : strOptTruthy svc.file_search_store_name = false
  · rw [if_pos hst]
    simp
  · rw [if_neg hst]
    dsimp only
    cases hc : collab { model := flashModelName, contents := searchQueryOf query mf, store := svc.file_search_store_name.getD "", top_k := mr } with
    | success resp => exact parseSearchResults_length_le resp mr
    | apiError c m => simp
    | failure m => simp

/-- With a configured store and a successful collaborator response, the
`file_search` results are exactly the parsed response. -/
theorem fileSearch_success_results (svc : GeminiService) (collab : IssuedRequest → SearchOutcome)
    (query : String) (mf : Option String) (mr : Nat) (resp : SearchResponse)
    (hstore : strOptTruthy svc.file_search_store_name = true)
    (hresp : collab { model := flashModelName, contents := searchQueryOf query mf, store := svc.file_search_store_name.getD "", top_k := mr } = .success resp) :
    (fileSearch svc collab query mf mr).2 = parseSearchResults resp mr := by
  unfold fileSearch
  rw [if_neg (by simp [hstore])]
  dsimp only
  rw [hresp]

/-- The parsed results are the grounding chunks in order, truncated to
`max_results` and converted chunk by chunk. -/
theorem parseSearchResults_order (resp : SearchResponse) (mr : Nat)
    (c : Candidate) (cs : List Candidate) (g : GroundingMetadata) (chunks : List GroundingChunk)
    (hcand : resp.candidates = some (c :: cs))
    (hg : c.grounding_metadata = some g)
    (hch : g.grounding_chunks = some chunks) :
    parseSearchResults resp mr = (chunks.take mr).map chunkToResult := by
  unfold parseSearchResults
  rw [hcand]
  dsimp only
  rw [hg]
  dsimp only
  rw [hch]
  dsimp only
  cases chunks with
  | nil => simp
  | cons a l => rfl

/-! ## Shared lemmas: source extraction versus first-seen de-duplication -/

/-- Membership of a string leaf in a mapped list mirrors membership of
the underlying string. -/
theorem contains_map_str (acc : List String) (t : String) :
    ((acc.map PyVal.str).contains (PyVal.str t)) = acc.contains t := by
  induction acc with
  | nil => rfl
  | cons a l ih =>
    show ((PyVal.str t == PyVal.str a) || (l.map PyVal.str).contains (PyVal.str t)) = ((t == a) || l.contains t)
    rw [ih]
    rfl

/-- One unstructured-source step on an excerpt record is one first-seen
de-duplication step on its title. -/
theorem uStep_excerpt (acc : List String) (t x u : String) :
    unstructuredSourceStep (acc.map PyVal.str) (excerptRecord t x u) =
      (dedupStep acc t).map PyVal.str := by
  unfold unstructuredSourceStep excerptRecord dedupStep
  have hpe : ("".isEmpty) = true := rfl
  cases hc : acc.contains t with
  | true =>
    have h2 : ((acc.map PyVal.str).contains (PyVal.str t)) = true := by rw [contains_map_str, hc]
    simp [dictGet, List.lookup, PyVal.truthy, PyVal.pyStr, hpe, h2, hc]
  | false =>
    have h2 : ((acc.map PyVal.str).contains (PyVal.str t)) = false := by rw [contains_map_str, hc]
    simp [dictGet, List.lookup, PyVal.truthy, PyVal.pyStr, hpe, h2, hc]

/-- One document-source step on a document record is one first-seen
de-duplication step on its title, skipping empty titles. -/
theorem dStep_doc (acc : List String) (t ty u : String) :
    docSourceStep (acc.map PyVal.str) (documentRecord t ty u) =
      (if t.isEmpty then acc else dedupStep acc t).map PyVal.str := by
  unfold docSourceStep documentRecord dedupStep
  cases he : t.isEmpty with
  | true => simp [dictGet, List.lookup, PyVal.truthy, he]
  | false =>
    cases hc : acc.contains t with
    | true =>
      have h2 : ((acc.map PyVal.str).contains (PyVal.str t)) = true := by rw [contains_map_str, hc]
      simp [dictGet, List.lookup, PyVal.truthy, he, h2, hc]
    | false =>
      have h2 : ((acc.map PyVal.str).contains (PyVal.str t)) = false := by rw [contains_map_str, hc]
      simp [dictGet, List.lookup, PyVal.truthy, he, h2, hc]

/-- The unstructured-source fold over excerpt records computes the
first-seen de-duplication of their titles. -/
theorem foldl_excerpts_map_str (ex : List (String × String × String)) (acc : List String) :
    (ex.map (fun e => excerptRecord e.1 e.2.1 e.2.2)).foldl unstructuredSourceStep (acc.map PyVal.str) =
      ((ex.map (fun e => e.1)).foldl dedupStep acc).map PyVal.str := by
  induction ex generalizing acc with
  | nil => rfl
  | cons e rest ih =>
    simp only [List.map_cons, List.foldl_cons, uStep_excerpt]
    exact ih _

/-- The document-source fold over document records continues the
first-seen de-duplication on their non-empty titles. -/
theorem foldl_docs_map_str (docs : List (String × String × String)) (acc : List String) :
    (docs.map (fun dcc => documentRecord dcc.1 dcc.2.1 dcc.2.2)).foldl docSourceStep (acc.map PyVal.str) =
      (((docs.map (fun dcc => dcc.1)).filter (fun t => !t.isEmpty)).foldl dedupStep acc).map PyVal.str := by
  induction docs generalizing acc with
  | nil => rfl
  | cons dcc rest ih =>
    simp only [List.map_cons, List.foldl_cons, dStep_doc]
    cases he : dcc.1.isEmpty with
    | true =>
      simp only [List.filter_cons, he, Bool.not_true, eq_self_iff_true, ite_true, if_false,
        Bool.false_eq_true]
      exact ih acc
    | false =>
      simp only [List.filter_cons, he, Bool.not_false, List.foldl_cons, Bool.false_eq_true,
        if_false, ite_false]
      exact ih _

/-- First-seen de-duplication never introduces duplicates. -/
theorem dedup_fold_nodup (l : List String) : ∀ acc : List String, acc.Nodup → (l.foldl dedupStep acc).Nodup := by
  induction l with
  | nil => intro acc h; exact h
  | cons t rest ih =>
    intro acc h
    simp only [List.foldl_cons]
    apply ih
    unfold dedupStep
    cases hc : acc.contains t with
    | true => rw [if_pos rfl]; exact h
    | false =>
      rw [if_neg (by simp)]
      have ht : t ∉ acc := by
        intro hmem
        have hct : acc.contains t = true := List.elem_iff.mpr hmem
        rw [hct] at hc
        cases hc
      simp [List.nodup_append, h, ht]

/-- C8: prompt construction never raises on any media shape — records,
bare strings, mixed entries, or a media value that is not a mapping at
all — and a non-mapping media value is normalized to contribute nothing,
exactly as if media were absent. -/
theorem build_prompt_normalizes_all_media_shapes (query : String)
    (sd : List (String × PyVal)) (media dv : PyVal) (us : List PyVal) :
    (∃ s, buildPrompt query
      ⟨.pdict [("specs", .pdict sd), ("media", media), ("documents", dv)], us⟩ = .ok s) ∧
    (media.isDict = false →
      buildPrompt query ⟨.pdict [("specs", .pdict sd), ("media", media), ("documents", dv)], us⟩ =
      buildPrompt query ⟨.pdict [("specs", .pdict sd), ("media", .pnone), ("documents", dv)], us⟩) := by
  constructor
  · exact buildPrompt_pdict_ok query _ us (specs_shape_three sd media dv)
  · intro hm
    unfold buildPrompt
    dsimp only
    have h1 : hasProductFlag (.pdict [("specs", PyVal.pdict sd), ("media", media), ("documents", dv)]) =
        hasProductFlag (.pdict [("specs", PyVal.pdict sd), ("media", PyVal.pnone), ("documents", dv)]) := rfl
    have h2 : specsSection (.pdict [("specs", PyVal.pdict sd), ("media", media), ("documents", dv)]) =
        specsSection (.pdict [("specs", PyVal.pdict sd), ("media", PyVal.pnone), ("documents", dv)]) := rfl
    have h3 : docsSection (.pdict [("specs", PyVal.pdict sd), ("media", media), ("documents", dv)]) =
        docsSection (.pdict [("specs", PyVal.pdict sd), ("media", PyVal.pnone), ("documents", dv)]) := rfl
    have h4 : (PyVal.pdict [("specs", PyVal.pdict sd), ("media", media), ("documents", dv)]).truthy = true := rfl
    have h5 : (PyVal.pdict [("specs", PyVal.pdict sd), ("media", PyVal.pnone), ("documents", dv)]).truthy = true := rfl
    rw [h1, h2, h3, mediaSection_threeKeys_nondict (.pdict sd) dv media hm,
      mediaSection_threeKeys_nondict (.pdict sd) dv .pnone rfl, h4, h5]

/-- Witness for C8 at a concrete malformed (string-valued) media
payload. -/
theorem build_prompt_normalizes_all_media_shapes_witness :
    (∃ s, buildPrompt "q"
      ⟨.pdict [("specs", .pdict [("A", .str "1")]), ("media", .str "oops"), ("documents", .plist [])], []⟩ = .ok s) ∧
    ((PyVal.str "oops").isDict = false →
      buildPrompt "q" ⟨.pdict [("specs", .pdict [("A", .str "1")]), ("media", .str "oops"), ("documents", .plist [])], []⟩ =
      buildPrompt "q" ⟨.pdict [("specs", .pdict [("A", .str "1")]), ("media", .pnone), ("documents", .plist [])], []⟩) :=
  build_prompt_normalizes_all_media_shapes "q" [("A", .str "1")] (.str "oops") (.plist []) []

/-- C4: a run on which the Matcher resolved no product completes without
any exception (given a generation collaborator that answers) and its
output has a null matched product, confidence 0.0 and null media assets
— a no-match is a normal outcome. -/
theorem no_match_is_normal_outcome (svc : GeminiService) (pm : PromptsManager)
    (collab : IssuedRequest → SearchOutcome) (f : GenRequest → String)
    (query mode now : String) :
    ∃ out, (processQuery svc pm collab (fun req => .ok (f req)) none query mode now).result = .ok out ∧
      out.matched_product = none ∧ out.confidence = 0 ∧ out.media_assets = none :=
  ⟨_, rfl, rfl, rfl, rfl⟩

/-- C3: when every unstructured-search collaborator outcome is an error,
`file_search` returns the empty list instead of raising — the installed
unstructured context is empty — and the run still completes with a
successful result. -/
theorem search_failure_degrades_to_empty (svc : GeminiService) (pm : PromptsManager)
    (collab : IssuedRequest → SearchOutcome) (f : GenRequest → String)
    (pc : Option ProductContext) (query mode now : String)
    (herr : ∀ req, (collab req).isFailure = true)
    (hpc : matchWellShaped pc = true) :
    (processQuery svc pm collab (fun req => .ok (f req)) pc query mode now).context.unstructured = [] ∧
    ∃ out, (processQuery svc pm collab (fun req => .ok (f req)) pc query mode now).result = .ok out := by
  constructor
  · rw [(processQuery_retrieval_projections svc pm collab (fun req => .ok (f req)) pc query mode now).2.2,
      retrieveData_context]
    exact fileSearch_failure_empty svc collab query (pc.map ProductContext.model_number) 5 herr
  · exact processQuery_ok_of_gen_ok svc pm collab f pc query mode now hpc

/-- Witness for C3: a concrete run against a collaborator that always
times out still installs an empty unstructured context. -/
theorem search_failure_degrades_to_empty_witness :
    (processQuery c3Svc c3Pm (fun _ => .failure "timeout")
      (fun req => .ok ((fun _ => "answer") req)) none "hello" "flash" "t").context.unstructured = [] :=
  (search_failure_degrades_to_empty c3Svc c3Pm (fun _ => .failure "timeout")
    (fun _ => "answer") none "hello" "flash" "t" (fun _ => rfl) rfl).1

/-- C9: when the generation collaborator raises, the error propagates out
of `generate_response` and `process_query` unchanged and exactly one
generation request was issued (no retry); the chat endpoint surfaces it
as a single HTTP 500 request failure. -/
theorem generation_error_fails_single_run (svc : GeminiService) (pm : PromptsManager)
    (collab : IssuedRequest → SearchOutcome) (e : String)
    (pc : Option ProductContext) (query mode now : String)
    (hpc : matchWellShaped pc = true) :
    (processQuery svc pm collab (fun _ => .error e) pc query mode now).result = .error e ∧
    (processQuery svc pm collab (fun _ => .error e) pc query mode now).genCalls.length = 1 ∧
    processChat svc pm collab (fun _ => .error e) pc query mode now =
      .error { status_code := 500, detail := "Error processing query: " ++ e } := by
  have hrc := retrieveData_context svc collab query pc
  rcases buildPrompt_pdict_ok query (structuredEntriesOfMatch pc)
      ((fileSearch svc collab query (pc.map ProductContext.model_number) 5).2)
      (structuredEntries_specs_shape pc hpc) with ⟨s, hbp⟩
  have hgen := generateResponse_error_of e query
      (RetrievalContext.mk (.pdict (structuredEntriesOfMatch pc))
        ((fileSearch svc collab query (pc.map ProductContext.model_number) 5).2))
      mode (some (selectedPrompt pm query)) s hbp
  have hres : (processQuery svc pm collab (fun _ => .error e) pc query mode now).result = .error e := by
    unfold processQuery
    dsimp only
    rw [hrc, hgen.2]
  have hcalls : (processQuery svc pm collab (fun _ => .error e) pc query mode now).genCalls.length = 1 := by
    unfold processQuery
    dsimp only
    rw [hrc, hgen.2]
    dsimp only
    exact hgen.1
  refine ⟨hres, hcalls, ?_⟩
  unfold processChat
  rw [hres]

/-- Witness for C9 at a concrete erroring generation collaborator. -/
theorem generation_error_fails_single_run_witness :
    (processQuery c9Svc c9Pm c9Collab (fun _ => .error "boom") none "q" "flash" "t").result = .error "boom" ∧
    (processQuery c9Svc c9Pm c9Collab (fun _ => .error "boom") none "q" "flash" "t").genCalls.length = 1 ∧
    processChat c9Svc c9Pm c9Collab (fun _ => .error "boom") none "q" "flash" "t" =
      .error { status_code := 500, detail := "Error processing query: " ++ "boom" } :=
  generation_error_fails_single_run c9Svc c9Pm c9Collab "boom" none "q" "flash" "t" rfl

/-- C5 (amended): provided the file-search store is configured, every run
makes exactly one search-collaborator call, capped at 5, with the model
number as filter exactly when a product matched; the single external
request prepends the model number to the query text (or is the bare
query when no product matched); and the structured context is populated
verbatim from the product, or left empty. -/
theorem single_search_request_when_store_configured (svc : GeminiService) (pm : PromptsManager)
    (collab : IssuedRequest → SearchOutcome) (gen : GenRequest → Except String String)
    (pc : Option ProductContext) (query mode now : String)
    (hstore : strOptTruthy svc.file_search_store_name = true) :
    (processQuery svc pm collab gen pc query mode now).searchCalls =
      [{ query := query, model_filter := pc.map ProductContext.model_number, max_results := 5 }] ∧
    (processQuery svc pm collab gen pc query mode now).issuedSearch =
      some { model := flashModelName
             contents := (match pc with
               | some p => p.model_number ++ " " ++ query
               | none => query)
             store := svc.file_search_store_name.getD ""
             top_k := 5 } ∧
    (processQuery svc pm collab gen pc query mode now).context.structured =
      (match pc with
        | some p => PyVal.pdict [("specs", p.specs), ("media", p.media), ("documents", p.documents)]
        | none => PyVal.pdict []) := by
  obtain ⟨hsc, his, hctx⟩ := processQuery_retrieval_projections svc pm collab gen pc query mode now
  have hcond : ¬ (strOptTruthy svc.file_search_store_name = false) := by simp [hstore]
  refine ⟨?_, ?_, ?_⟩
  · rw [hsc]
    cases pc <;> rfl
  · rw [his]
    cases pc with
    | none =>
      unfold retrieveData fileSearch
      dsimp only
      rw [if_neg hcond]
      cases collab { model := flashModelName, contents := searchQueryOf query none, store := svc.file_search_store_name.getD "", top_k := 5 } <;> rfl
    | some p =>
      unfold retrieveData fileSearch
      dsimp only
      rw [if_neg hcond]
      cases collab { model := flashModelName, contents := searchQueryOf query (some p.model_number), store := svc.file_search_store_name.getD "", top_k := 5 } <;> rfl
  · rw [hctx, retrieveData_context]
    cases pc <;> rfl

/-- Witness for C5 at a concrete matched product and configured store. -/
theorem single_search_request_when_store_configured_witness :
    (processQuery c5Svc c5Pm c5Collab c5Gen (some c5Product) "price?" "flash" "t").searchCalls =
      [{ query := "price?", model_filter := (some c5Product).map ProductContext.model_number, max_results := 5 }] ∧
    (processQuery c5Svc c5Pm c5Collab c5Gen (some c5Product) "price?" "flash" "t").issuedSearch =
      some { model := flashModelName
             contents := (match some c5Product with
               | some p => p.model_number ++ " " ++ "price?"
               | none => "price?")
             store := c5Svc.file_search_store_name.getD ""
             top_k := 5 } ∧
    (processQuery c5Svc c5Pm c5Collab c5Gen (some c5Product) "price?" "flash" "t").context.structured =
      (match some c5Product with
        | some p => PyVal.pdict [("specs", p.specs), ("media", p.media), ("documents", p.documents)]
        | none => PyVal.pdict []) :=
  single_search_request_when_store_configured c5Svc c5Pm c5Collab c5Gen (some c5Product) "price?" "flash" "t" rfl

/-- Counterexample to C5 as stated: with no file-search store configured
(`FILE_SEARCH_CORPUS_ID` unset), a pipeline run issues zero external
search requests, not exactly one — `file_search` returns before building
any request. -/
theorem store_unconfigured_issues_no_search_request :
    (processQuery c5NoStoreSvc c5Pm c5Collab c5Gen (some c5Product) "price?" "flash" "t").issuedSearch = none := rfl

/-- C7: the `file_search` result sequence is the grounding chunks in the
collaborator response order, truncated to `max_results` and never
re-sorted; its length never exceeds `max_results` (whatever the
collaborator does); and it is installed as the run unstructured context
unchanged. -/
theorem file_search_cap_order_and_install (svc : GeminiService) (collab : IssuedRequest → SearchOutcome)
    (query : String) (mf : Option String) (mr : Nat) (resp : SearchResponse)
    (c : Candidate) (cs : List Candidate) (g : GroundingMetadata) (chunks : List GroundingChunk)
    (hstore : strOptTruthy svc.file_search_store_name = true)
    (hresp : collab { model := flashModelName, contents := searchQueryOf query mf, store := svc.file_search_store_name.getD "", top_k := mr } = .success resp)
    (hcand : resp.candidates = some (c :: cs))
    (hg : c.grounding_metadata = some g)
    (hch : g.grounding_chunks = some chunks) :
    (fileSearch svc collab query mf mr).2 = (chunks.take mr).map chunkToResult ∧
    (fileSearch svc collab query mf mr).2.length ≤ mr ∧
    (∀ pc, (retrieveData svc collab query pc).2.2.unstructured =
      (fileSearch svc collab query (pc.map ProductContext.model_number) 5).2) := by
  refine ⟨?_, fileSearch_length_le svc collab query mf mr, ?_⟩
  · rw [fileSearch_success_results svc collab query mf mr resp hstore hresp,
      parseSearchResults_order resp mr c cs g chunks hcand hg hch]
  · intro pc
    cases pc <;> rfl

/-- Witness for C7: two grounding chunks, `max_results = 1` — the result
is the first chunk only, in order. -/
theorem file_search_cap_order_and_install_witness :
    (fileSearch c7Svc c7Collab "q" none 1).2 = ([c7Chunk1, c7Chunk2].take 1).map chunkToResult :=
  (file_search_cap_order_and_install c7Svc c7Collab "q" none 1 c7Resp c7Cand [] c7Meta
    [c7Chunk1, c7Chunk2] rfl rfl rfl rfl rfl).1

/-- C6: on pipeline-shaped inputs (excerpt records from `file_search`,
document records from the catalog), the extracted sources are exactly
the first-seen order-preserving de-duplication of the excerpt titles
followed by the non-empty document titles — so two excerpts sharing a
title contribute one entry, and a document title already present is not
appended again — and the resulting list has no duplicates. -/
theorem sources_first_seen_dedup_by_title (ex docs : List (String × String × String))
    (specsV mediaV : PyVal) :
    extractSources
      ⟨.pdict [("specs", specsV), ("media", mediaV),
        ("documents", .plist (docs.map (fun dcc => documentRecord dcc.1 dcc.2.1 dcc.2.2)))],
       ex.map (fun e => excerptRecord e.1 e.2.1 e.2.2)⟩ =
      .ok ((specFirstSeenDedup ((ex.map (fun e => e.1)) ++
        (docs.map (fun dcc => dcc.1)).filter (fun t => !t.isEmpty))).map PyVal.str) ∧
    (specFirstSeenDedup ((ex.map (fun e => e.1)) ++
      (docs.map (fun dcc => dcc.1)).filter (fun t => !t.isEmpty))).Nodup := by
  constructor
  · have h0 : extractSources
        ⟨.pdict [("specs", specsV), ("media", mediaV),
          ("documents", .plist (docs.map (fun dcc => documentRecord dcc.1 dcc.2.1 dcc.2.2)))],
         ex.map (fun e => excerptRecord e.1 e.2.1 e.2.2)⟩ =
        .ok (appendDocSources (unstructuredSources (ex.map (fun e => excerptRecord e.1 e.2.1 e.2.2)))
          (docs.map (fun dcc => documentRecord dcc.1 dcc.2.1 dcc.2.2))) := rfl
    rw [h0]
    have h1 : unstructuredSources (ex.map (fun e => excerptRecord e.1 e.2.1 e.2.2)) =
        ((ex.map (fun e => e.1)).foldl dedupStep []).map PyVal.str := by
      unfold unstructuredSources
      have h := foldl_excerpts_map_str ex []
      simpa using h
    rw [h1]
    unfold appendDocSources
    rw [foldl_docs_map_str docs ((ex.map (fun e => e.1)).foldl dedupStep [])]
    unfold specFirstSeenDedup
    rw [List.foldl_append]
  · exact dedup_fold_nodup _ [] List.nodup_nil

end Flusso
